import Mathlib

/-!
Verification development for the squashfs 4.0 mount/unmount core
(src/kernel/fs/squashfs/super.c).

The embedding models squashfs_fill_super, squashfs_put_super,
squashfs_statfs and supported_squashfs_filesystem as executable Lean
functions.  External collaborator services (allocators, the cache
constructor, the three index-table loaders, inode materialization) are
opaque from this file's point of view; their outcomes are supplied by a
fault-injection environment, following the interface contracts of the
specification.  Every allocation and release performed by the code is
recorded in an event log so that exactly-once-release and leak properties
can be stated and checked.
-/

namespace Squashfs

/-- Linux error number ENOMEM (out of memory), from the kernel errno
headers, which are outside this repository. -/
def ENOMEM : Int := 12

/-- Linux error number EINVAL (invalid argument), from the kernel errno
headers, which are outside this repository. -/
def EINVAL : Int := 22

/-- Modelled from the spec: the on-disk magic constant from the missing
header squashfs_fs.h (spec section 3: a 32-bit constant identifying the
format).  The value is the standard squashfs one; no claim depends on it. -/
def SQUASHFS_MAGIC : Nat := 0x73717368

/-- Modelled from the spec: the supported major version, from the missing
header squashfs_fs.h.  The source prints version 4.0 at module init. -/
def SQUASHFS_MAJOR : Int := 4

/-- Modelled from the spec: the supported minor version, from the missing
header squashfs_fs.h.  The source prints version 4.0 at module init. -/
def SQUASHFS_MINOR : Int := 0

/-- Modelled from the spec: the identifier of the single supported
compression algorithm (zlib), from the missing header squashfs_fs.h. -/
def ZLIB_COMPRESSION : Int := 1

/-- Modelled from the spec: the maximum file-size constant bounding
block_size (missing header squashfs_fs.h); 1 MiB in squashfs 4.0. -/
def SQUASHFS_FILE_SIZE : Nat := 1048576

/-- Modelled from the spec: the log2 of the maximum file size bounding
block_log (missing header squashfs_fs.h). -/
def SQUASHFS_FILE_LOG : Nat := 20

/-- Modelled from the spec: the metadata block size constant (missing
header squashfs_fs.h). -/
def SQUASHFS_METADATA_SIZE : Nat := 8192

/-- Modelled from the spec: the maximum name length format constant
(missing header squashfs_fs.h). -/
def SQUASHFS_NAME_LEN : Nat := 256

/-- Modelled from the spec: the reserved 64-bit sentinel meaning that an
optional table is absent (missing header squashfs_fs.h), read as a signed
long long as the source does. -/
def SQUASHFS_INVALID_BLK : Int := -1

/-- Modelled from the spec: the offset component of an encoded
(block, offset) inode locator, the low 16 bits of the 64-bit value
(missing header squashfs_fs.h). -/
def SQUASHFS_INODE_OFFSET (a : Nat) : Nat := a % 65536

/-- Model of ffz(~v) at source line 102: the index of the lowest set bit
of v, with the scan bounded by the 64-bit word size. -/
def ffz_compl (v : Nat) : Nat :=
  ((List.range 64).find? (fun i => v.testBit i)).getD 64

/-- Outcome of a table-loader call or content of a loaded-table pointer
field, mirroring the C pointer conventions: NULL, a valid owned
allocation, or an ERR_PTR-encoded error value. -/
inductive TPtr where
  | null
  | ok
  | err (e : Int)
deriving DecidableEq

/-- IS_ERR on a pointer value. -/
def TPtr.isErr : TPtr → Bool
  | .err _ => true
  | _ => false

/-- PTR_ERR on a pointer value (meaningful only when IS_ERR holds). -/
def PTR_ERR : TPtr → Int
  | .err e => e
  | _ => 0

/-- Resources allocated and released by the mount and unmount paths. -/
inductive Res where
  | msblkInfo
  | workspace
  | sblkBuf
  | blockCache
  | readPage
  | idTable
  | fragCache
  | fragIndex
  | lookupTable
  | metaIndex
  | rootInode
deriving DecidableEq

/-- Allocation and release events; freeBad records a release applied to an
ERR_PTR-encoded value, which would be a fault in the real kernel. -/
inductive Event where
  | alloc (r : Res)
  | free (r : Res)
  | freeBad (r : Res)
deriving DecidableEq

/-- Release of a possibly-absent plain resource: vfree/kfree of NULL and
squashfs_cache_delete of NULL are no-ops. -/
def freeIf (r : Res) (present : Bool) : List Event :=
  if present then [Event.free r] else []

/-- Release of a table pointer field with kfree: NULL is a no-op, a valid
allocation is freed, and an ERR_PTR value would be a fault. -/
def kfreeT (r : Res) : TPtr → List Event
  | .null => []
  | .ok => [Event.free r]
  | .err _ => [Event.freeBad r]

/-- Allocation event for the result of a table loader: only a successful
load transfers an owned array. -/
def allocEvent (r : Res) : TPtr → List Event
  | .ok => [Event.alloc r]
  | _ => []

/-- In-memory per-mount state, struct squashfs_sb_info.  The header
declaring it is outside src/; the fields modelled here are the ones
super.c reads or writes.  Presence of the owned buffers and caches is a
Bool; the three loaded tables keep the full pointer convention. -/
structure SbInfo where
  devblksize : Nat := 0
  devblksize_log2 : Nat := 0
  bytes_used : Int := 0
  block_size : Nat := 0
  block_log : Nat := 0
  inodes : Nat := 0
  inode_table : Nat := 0
  directory_table : Nat := 0
  workspace : Bool := false
  block_cache : Bool := false
  fragment_cache : Bool := false
  read_page : Bool := false
  meta_index : Bool := false
  id_table : TPtr := TPtr.null
  fragment_index : TPtr := TPtr.null
  inode_lookup_table : TPtr := TPtr.null
deriving DecidableEq

/-- The VFS super_block fields that super.c touches. -/
structure SB where
  s_magic : Nat := 0
  s_fs_info : Option SbInfo := none
  s_export_op : Bool := false
  s_root : Bool := false
  s_rdonly : Bool := false
deriving DecidableEq

/-- Modelled from the spec: the raw little-endian superblock record (spec
section 3), already decoded field-wise; the struct declaration lives in
the missing header squashfs_fs.h.  Signed 64-bit fields that super.c
compares as long long are Int, unsigned ones are Nat, and the 16-bit
version/compression fields are Int because the source passes them as C
short. -/
structure Sblk where
  s_magic : Nat := 0
  s_major : Int := 0
  s_minor : Int := 0
  compression : Int := 0
  flags : Nat := 0
  bytes_used : Int := 0
  block_size : Nat := 0
  block_log : Nat := 0
  inodes : Nat := 0
  fragments : Nat := 0
  no_ids : Nat := 0
  root_inode : Nat := 0
  xattr_table_start : Int := 0
  inode_table_start : Nat := 0
  directory_table_start : Nat := 0
  fragment_table_start : Nat := 0
  id_table_start : Nat := 0
  lookup_table_start : Int := 0
deriving DecidableEq

/-- Modelled from the spec: fault-injection environment for the external
collaborator services (spec sections 4.3 and 6): kernel allocators, the
device read, the cache constructor, the three index-table loaders and
root-inode materialization.  Each loader either returns an owned table or
an ERR_PTR, with no side effects on failure. -/
structure Env where
  msblk_alloc_ok : Bool := true
  workspace_alloc_ok : Bool := true
  sblk_alloc_ok : Bool := true
  read_data_ret : Int := 0
  devblksize : Nat := 1024
  dev_size : Int := 0
  block_cache_ok : Bool := true
  read_page_ok : Bool := true
  id_table_res : TPtr := TPtr.ok
  fragment_cache_ok : Bool := true
  fragment_index_res : TPtr := TPtr.ok
  lookup_table_res : TPtr := TPtr.ok
  new_inode_ok : Bool := true
  read_inode_ret : Int := 0
  d_alloc_root : Bool := true

/-- Result of a squashfs_fill_super call: the returned error code, the
final super_block, and the log of every allocation and release event the
call performed. -/
structure FillResult where
  ret : Int
  sb : SB
  log : List Event
deriving DecidableEq

/-- The failed_mount label of squashfs_fill_super (source lines 281-292):
delete both caches, kfree the three tables, vfree the read-ahead buffer
and the decompression workspace, free and clear s_fs_info, free the
superblock scratch copy, and return err unchanged. -/
def failed_mount (sb : SB) (msblk : SbInfo) (log : List Event) (err : Int) :
    FillResult :=
  { ret := err,
    sb := { sb with s_fs_info := none },
    log := log
      ++ freeIf Res.blockCache msblk.block_cache
      ++ freeIf Res.fragCache msblk.fragment_cache
      ++ kfreeT Res.lookupTable msblk.inode_lookup_table
      ++ kfreeT Res.fragIndex msblk.fragment_index
      ++ kfreeT Res.idTable msblk.id_table
      ++ freeIf Res.readPage msblk.read_page
      ++ freeIf Res.workspace msblk.workspace
      ++ [Event.free Res.msblkInfo]
      ++ [Event.free Res.sblkBuf] }

/-- The failure label of squashfs_fill_super (source lines 294-298),
reached before the superblock scratch copy exists: vfree the workspace,
free and clear s_fs_info, return -ENOMEM. -/
def failure_unwind (sb : SB) (msblk : SbInfo) (log : List Event) :
    FillResult :=
  { ret := -ENOMEM,
    sb := { sb with s_fs_info := none },
    log := log
      ++ freeIf Res.workspace msblk.workspace
      ++ [Event.free Res.msblkInfo] }

/-- The version and compression gate (source lines 48-65). -/
def supported_squashfs_filesystem (major minor comp : Int) : Int :=
  if major < SQUASHFS_MAJOR then -EINVAL
  else if major > SQUASHFS_MAJOR ∨ minor > SQUASHFS_MINOR then -EINVAL
  else if comp ≠ ZLIB_COMPRESSION then -EINVAL
  else 0

/-- The allocate_root tail of squashfs_fill_super (source lines 255-279):
new_inode, squashfs_read_inode (with iget_failed on failure) and
d_alloc_root (with iput on failure); on success the root is attached and
the superblock scratch copy is freed.  The externals' outcomes come from
the environment; squashfs_read_inode consumes the decoded root locator,
which the model folds into env.read_inode_ret. -/
def allocate_root (env : Env) (sb : SB) (msblk : SbInfo) (log : List Event) :
    FillResult :=
  if env.new_inode_ok = false then
    failed_mount sb msblk log (-ENOMEM)
  else
    let log := log ++ [Event.alloc Res.rootInode]
    if env.read_inode_ret ≠ 0 then
      failed_mount sb msblk (log ++ [Event.free Res.rootInode])
        env.read_inode_ret
    else if env.d_alloc_root = false then
      failed_mount sb msblk (log ++ [Event.free Res.rootInode]) (-ENOMEM)
    else
      { ret := 0,
        sb := { sb with s_root := true, s_fs_info := some msblk },
        log := log ++ [Event.free Res.sblkBuf] }

/-- The allocate_lookup_table part of squashfs_fill_super (source lines
239-253): skipped entirely when lookup_table_start is the absent
sentinel; otherwise the loader result is stored, an ERR_PTR result is
reset to NULL before unwinding with the loader's error, and a successful
load enables the export operations. -/
def allocate_lookup_table (env : Env) (sblk : Sblk) (sb : SB)
    (msblk : SbInfo) (log : List Event) : FillResult :=
  if sblk.lookup_table_start = SQUASHFS_INVALID_BLK then
    allocate_root env sb msblk log
  else
    let msblk := { msblk with inode_lookup_table := env.lookup_table_res }
    if msblk.inode_lookup_table.isErr = true then
      failed_mount sb { msblk with inode_lookup_table := TPtr.null } log
        (PTR_ERR env.lookup_table_res)
    else
      allocate_root env { sb with s_export_op := true } msblk
        (log ++ allocEvent Res.lookupTable env.lookup_table_res)

/-- The fragment part of squashfs_fill_super (source lines 219-237):
nothing is created when fragments = 0; otherwise the fragment cache is
created and the fragment index table loaded, an ERR_PTR result again
being reset to NULL before unwinding. -/
def fill_fragments (env : Env) (sblk : Sblk) (sb : SB) (msblk : SbInfo)
    (log : List Event) : FillResult :=
  if sblk.fragments = 0 then
    allocate_lookup_table env sblk sb msblk log
  else if env.fragment_cache_ok = false then
    failed_mount sb msblk log (-ENOMEM)
  else
    let msblk := { msblk with fragment_cache := true }
    let log := log ++ [Event.alloc Res.fragCache]
    let msblk := { msblk with fragment_index := env.fragment_index_res }
    if msblk.fragment_index.isErr = true then
      failed_mount sb { msblk with fragment_index := TPtr.null } log
        (PTR_ERR env.fragment_index_res)
    else
      allocate_lookup_table env sblk sb msblk
        (log ++ allocEvent Res.fragIndex env.fragment_index_res)

/-- The cache, read-ahead buffer and id-table part of squashfs_fill_super
(source lines 198-217): create the metadata cache, allocate the
read-ahead block sized to block_size, then load the mandatory id table,
resetting an ERR_PTR result to NULL before unwinding with the loader's
error. -/
def fill_caches (env : Env) (sblk : Sblk) (sb : SB) (msblk : SbInfo)
    (log : List Event) : FillResult :=
  if env.block_cache_ok = false then
    failed_mount sb msblk log (-ENOMEM)
  else
    let msblk := { msblk with block_cache := true }
    let log := log ++ [Event.alloc Res.blockCache]
    if env.read_page_ok = false then
      failed_mount sb msblk log (-ENOMEM)
    else
      let msblk := { msblk with read_page := true }
      let log := log ++ [Event.alloc Res.readPage]
      let msblk := { msblk with id_table := env.id_table_res }
      if msblk.id_table.isErr = true then
        failed_mount sb { msblk with id_table := TPtr.null } log
          (PTR_ERR env.id_table_res)
      else
        fill_fragments env sblk sb msblk
          (log ++ allocEvent Res.idTable env.id_table_res)

/-- The size and bound checks of squashfs_fill_super (source lines
149-194), run in source order, each short-circuiting: bytes_used must be
non-negative and within the device, block_size and block_log within the
format maxima, the root locator offset within a metadata block; the
passing superblock's scalars are then recorded and the read-only flag
forced before resource acquisition starts. -/
def fill_checks (env : Env) (sblk : Sblk) (sb : SB) (msblk : SbInfo)
    (log : List Event) : FillResult :=
  let msblk := { msblk with bytes_used := sblk.bytes_used }
  if sblk.bytes_used < 0 ∨ sblk.bytes_used > env.dev_size then
    failed_mount sb msblk log (-EINVAL)
  else
    let msblk := { msblk with block_size := sblk.block_size }
    if sblk.block_size > SQUASHFS_FILE_SIZE then
      failed_mount sb msblk log (-EINVAL)
    else
      let msblk := { msblk with block_log := sblk.block_log }
      if sblk.block_log > SQUASHFS_FILE_LOG then
        failed_mount sb msblk log (-EINVAL)
      else if SQUASHFS_INODE_OFFSET sblk.root_inode >
          SQUASHFS_METADATA_SIZE then
        failed_mount sb msblk log (-EINVAL)
      else
        let msblk := { msblk with
          inode_table := sblk.inode_table_start,
          directory_table := sblk.directory_table_start,
          inodes := sblk.inodes }
        let sb := { sb with s_rdonly := true }
        fill_caches env sblk sb msblk log

/-- The mount entry point squashfs_fill_super (source lines 68-299):
allocate the per-mount state and decompression workspace and the
superblock scratch copy, read the superblock, check the magic and the
version/compression gate, then run the bound checks and the staged
resource acquisition; any failure unwinds through failure_unwind or
failed_mount.  The xattr check at source lines 146-147 only emits a
warning and is not an observable state change. -/
def squashfs_fill_super (env : Env) (sblk : Sblk) : FillResult :=
  let sb : SB := {}
  if env.msblk_alloc_ok = false then
    { ret := -ENOMEM, sb := sb, log := [] }
  else
    let msblk : SbInfo := {}
    let log : List Event := [Event.alloc Res.msblkInfo]
    if env.workspace_alloc_ok = false then
      failure_unwind sb msblk log
    else
      let msblk := { msblk with workspace := true }
      let log := log ++ [Event.alloc Res.workspace]
      if env.sblk_alloc_ok = false then
        failure_unwind sb msblk log
      else
        let log := log ++ [Event.alloc Res.sblkBuf]
        let msblk := { msblk with
          devblksize := env.devblksize,
          devblksize_log2 := ffz_compl env.devblksize,
          bytes_used := 96 }
        if env.read_data_ret < 0 then
          failed_mount sb msblk log env.read_data_ret
        else
          let sb := { sb with s_magic := sblk.s_magic }
          if sblk.s_magic ≠ SQUASHFS_MAGIC then
            failed_mount sb msblk log (-EINVAL)
          else if supported_squashfs_filesystem sblk.s_major sblk.s_minor
              sblk.compression < 0 then
            failed_mount sb msblk log
              (supported_squashfs_filesystem sblk.s_major sblk.s_minor
                sblk.compression)
          else
            fill_checks env sblk sb msblk log

/-- The capacity and usage report squashfs_statfs (source lines 302-317).
The block count shifts bytes_used minus one right by block_log; on a
signed 64-bit value this is an arithmetic shift, which Int division by
2 ^ block_log reproduces exactly (Int division floors for a positive
divisor). -/
structure Kstatfs where
  f_type : Nat
  f_bsize : Nat
  f_blocks : Int
  f_bfree : Int
  f_bavail : Int
  f_files : Nat
  f_ffree : Int
  f_namelen : Nat
deriving DecidableEq

/-- See Kstatfs; squashfs_statfs reads the mounted state only. -/
def squashfs_statfs (msblk : SbInfo) : Kstatfs :=
  { f_type := SQUASHFS_MAGIC,
    f_bsize := msblk.block_size,
    f_blocks := (msblk.bytes_used - 1) / ((2 : Int) ^ msblk.block_log) + 1,
    f_bfree := 0,
    f_bavail := 0,
    f_files := msblk.inodes,
    f_ffree := 0,
    f_namelen := SQUASHFS_NAME_LEN }

/-- The unmount path squashfs_put_super (source lines 327-341): when
state is attached, delete both caches, vfree the read-ahead buffer, kfree
the id table, the fragment index and the meta-index scratch structure,
vfree the workspace, then free the state and clear the pointer; with no
state attached the call is a no-op.  Note the source does not free
inode_lookup_table here. -/
def squashfs_put_super (sb : SB) : SB × List Event :=
  match sb.s_fs_info with
  | none => (sb, [])
  | some sbi =>
    ({ sb with s_fs_info := none },
      freeIf Res.blockCache sbi.block_cache
      ++ freeIf Res.fragCache sbi.fragment_cache
      ++ freeIf Res.readPage sbi.read_page
      ++ kfreeT Res.idTable sbi.id_table
      ++ kfreeT Res.fragIndex sbi.fragment_index
      ++ freeIf Res.metaIndex sbi.meta_index
      ++ freeIf Res.workspace sbi.workspace
      ++ [Event.free Res.msblkInfo])

/-- The remount operation squashfs_remount (source lines 320-324): force
the read-only flag and succeed. -/
def squashfs_remount (sb : SB) : Int × SB :=
  (0, { sb with s_rdonly := true })

/-- Modelled from the spec: the originating error of the root
materialization step (spec section 4.2 step 7). -/
def root_ret (env : Env) : Int :=
  if env.new_inode_ok = false then -ENOMEM
  else if env.read_inode_ret ≠ 0 then env.read_inode_ret
  else if env.d_alloc_root = false then -ENOMEM
  else 0

/-- Modelled from the spec: the originating error from the inode lookup
table step onward (spec section 4.2 step 6). -/
def lookup_ret (env : Env) (sblk : Sblk) : Int :=
  if sblk.lookup_table_start = SQUASHFS_INVALID_BLK then root_ret env
  else if env.lookup_table_res.isErr = true then PTR_ERR env.lookup_table_res
  else root_ret env

/-- Modelled from the spec: the originating error from the fragment step
onward (spec section 4.2 step 5). -/
def frag_ret (env : Env) (sblk : Sblk) : Int :=
  if sblk.fragments = 0 then lookup_ret env sblk
  else if env.fragment_cache_ok = false then -ENOMEM
  else if env.fragment_index_res.isErr = true then
    PTR_ERR env.fragment_index_res
  else lookup_ret env sblk

/-- Modelled from the spec: the originating error from the metadata
cache, read-ahead buffer and id table steps onward (spec section 4.2
steps 3 and 4). -/
def caches_ret (env : Env) (sblk : Sblk) : Int :=
  if env.block_cache_ok = false then -ENOMEM
  else if env.read_page_ok = false then -ENOMEM
  else if env.id_table_res.isErr = true then PTR_ERR env.id_table_res
  else frag_ret env sblk

/-- Modelled from the spec: the originating error from the size and bound
checks onward (spec section 4.1 checks 4-7). -/
def checks_ret (env : Env) (sblk : Sblk) : Int :=
  if sblk.bytes_used < 0 ∨ sblk.bytes_used > env.dev_size then -EINVAL
  else if sblk.block_size > SQUASHFS_FILE_SIZE then -EINVAL
  else if sblk.block_log > SQUASHFS_FILE_LOG then -EINVAL
  else if SQUASHFS_INODE_OFFSET sblk.root_inode > SQUASHFS_METADATA_SIZE then
    -EINVAL
  else caches_ret env sblk

/-- Modelled from the spec: the originating error of the first failing
validation or acquisition step, in the source's order (spec section 4.2
failure policy: propagate the originating error code unchanged). -/
def first_failing_step_error (env : Env) (sblk : Sblk) : Int :=
  if env.msblk_alloc_ok = false then -ENOMEM
  else if env.workspace_alloc_ok = false then -ENOMEM
  else if env.sblk_alloc_ok = false then -ENOMEM
  else if env.read_data_ret < 0 then env.read_data_ret
  else if sblk.s_magic ≠ SQUASHFS_MAGIC then -EINVAL
  else if supported_squashfs_filesystem sblk.s_major sblk.s_minor
      sblk.compression < 0 then
    supported_squashfs_filesystem sblk.s_major sblk.s_minor sblk.compression
  else checks_ret env sblk

/-- Occurrence count of an event in a log. -/
def countEv (e : Event) : List Event → Nat
  | [] => 0
  | x :: xs => (if x = e then 1 else 0) + countEv e xs

/-- Every resource kind, for finite quantification in executable checks. -/
def resList : List Res :=
  [Res.msblkInfo, Res.workspace, Res.sblkBuf, Res.blockCache, Res.readPage,
   Res.idTable, Res.fragCache, Res.fragIndex, Res.lookupTable,
   Res.metaIndex, Res.rootInode]

/-- Every resource allocated in the log has been released exactly as many
times as it was allocated. -/
def balancedLog (l : List Event) : Bool :=
  resList.all (fun r => countEv (Event.alloc r) l == countEv (Event.free r) l)

/-- No resource is released more than once in the log. -/
def freedAtMostOnce (l : List Event) : Bool :=
  resList.all (fun r => Nat.ble (countEv (Event.free r) l) 1)

/-- No release in the log was applied to an ERR_PTR-encoded value. -/
def noBadFree (l : List Event) : Bool :=
  l.all (fun e => match e with | Event.freeBad _ => false | _ => true)

/-- The three table fields of an attached mount state are each NULL or a
valid owned allocation, never an error-encoded pointer. -/
def tablesOk : Option SbInfo → Bool
  | none => true
  | some i =>
    !i.id_table.isErr && !i.fragment_index.isErr &&
      !i.inode_lookup_table.isErr

/-- Number of allocations of the resources acquired after superblock
validation (caches, buffers, tables, root object). -/
def downstreamAllocs (l : List Event) : Nat :=
  countEv (Event.alloc Res.blockCache) l + countEv (Event.alloc Res.readPage) l
    + countEv (Event.alloc Res.idTable) l
    + countEv (Event.alloc Res.fragCache) l
    + countEv (Event.alloc Res.fragIndex) l
    + countEv (Event.alloc Res.lookupTable) l
    + countEv (Event.alloc Res.rootInode) l

/-- Modelled from the spec: ceiling division for the capacity report of
spec section 4.4, block count = ceil(bytes_used / block_size). -/
def ceil_div (b : Int) (m : Nat) : Int := (b + m - 1) / m

/-- Every external service succeeds: no fault injected. -/
def Env.allOk (env : Env) : Prop :=
  env.msblk_alloc_ok = true ∧ env.workspace_alloc_ok = true ∧
  env.sblk_alloc_ok = true ∧ 0 ≤ env.read_data_ret ∧
  env.block_cache_ok = true ∧ env.read_page_ok = true ∧
  env.id_table_res = TPtr.ok ∧ env.fragment_cache_ok = true ∧
  env.fragment_index_res = TPtr.ok ∧ env.lookup_table_res = TPtr.ok ∧
  env.new_inode_ok = true ∧ env.read_inode_ret = 0 ∧
  env.d_alloc_root = true

/-- The superblock passes the magic, version/compression, size and bound
checks of source lines 124-168. -/
def sblk_valid (sblk : Sblk) (dev_size : Int) : Prop :=
  sblk.s_magic = SQUASHFS_MAGIC ∧
  supported_squashfs_filesystem sblk.s_major sblk.s_minor sblk.compression
    = 0 ∧
  0 ≤ sblk.bytes_used ∧ sblk.bytes_used ≤ dev_size ∧
  sblk.block_size ≤ SQUASHFS_FILE_SIZE ∧
  sblk.block_log ≤ SQUASHFS_FILE_LOG ∧
  SQUASHFS_INODE_OFFSET sblk.root_inode ≤ SQUASHFS_METADATA_SIZE

/-- One of the size and bound checks of source lines 149-168 rejects the
superblock. -/
def bounds_violated (sblk : Sblk) (dev_size : Int) : Prop :=
  (sblk.bytes_used < 0 ∨ sblk.bytes_used > dev_size) ∨
  sblk.block_size > SQUASHFS_FILE_SIZE ∨
  sblk.block_log > SQUASHFS_FILE_LOG ∨
  SQUASHFS_INODE_OFFSET sblk.root_inode > SQUASHFS_METADATA_SIZE

instance (env : Env) : Decidable env.allOk := by
  unfold Env.allOk
  infer_instance

instance (sblk : Sblk) (d : Int) : Decidable (sblk_valid sblk d) := by
  unfold sblk_valid
  infer_instance

instance (sblk : Sblk) (d : Int) : Decidable (bounds_violated sblk d) := by
  unfold bounds_violated
  infer_instance

/-- Fault-free environment used for concrete runs. -/
def envOK : Env := { dev_size := 1000000000 }

/-- Concrete superblock matching the spec section 8 scenario: correct
magic, version 4.0, zlib, 128 KiB blocks, ten inodes, no fragments, no
lookup table, root locator at block 0 offset 0. -/
def sblk0 : Sblk :=
  { s_magic := SQUASHFS_MAGIC, s_major := 4, s_minor := 0,
    compression := 1, bytes_used := 131072, block_size := 131072,
    block_log := 17, inodes := 10, fragments := 0, no_ids := 1,
    root_inode := 0, xattr_table_start := -1, lookup_table_start := -1 }

/-- Concrete superblock with a lookup table present. -/
def sblkLookup : Sblk := { sblk0 with lookup_table_start := 100 }

/-- Environment injecting an I/O error into the id-table loader. -/
def envIdErr : Env := { envOK with id_table_res := TPtr.err (-5) }

/-- Concrete superblock with the wrong magic but otherwise valid fields. -/
def sblkBadMagic : Sblk := { sblk0 with s_magic := 0 }

/-- Concrete validation-accepted superblock whose block_size is not
2 ^ block_log (the validator never compares them). -/
def sblkMismatch : Sblk := { sblk0 with block_size := 131072, block_log := 16 }

/-- Second validation-accepted superblock with inconsistent block_size and
block_log, used for the capacity-report inconsistency. -/
def sblkShift : Sblk := { sblk0 with block_size := 65536, block_log := 17 }

/-- Fully mounted per-volume state: every resource present, including the
inode lookup table of an export-capable mount and a lazily built
meta-index. -/
def fullSbi : SbInfo :=
  { devblksize := 1024, devblksize_log2 := 10, bytes_used := 131072,
    block_size := 131072, block_log := 17, inodes := 10,
    workspace := true, block_cache := true, fragment_cache := true,
    read_page := true, meta_index := true, id_table := TPtr.ok,
    fragment_index := TPtr.ok, inode_lookup_table := TPtr.ok }

/-- Super block of a fully mounted volume. -/
def mountedSB : SB :=
  { s_magic := SQUASHFS_MAGIC, s_fs_info := some fullSbi,
    s_export_op := true, s_root := true, s_rdonly := true }

/-- Number of live allocations implied by the fields of an in-flight
mount state, together with the state allocation itself and the superblock
scratch copy (both always live between their allocation and the unwind). -/
def held (msblk : SbInfo) : Res → Nat
  | Res.msblkInfo => 1
  | Res.sblkBuf => 1
  | Res.workspace => if msblk.workspace then 1 else 0
  | Res.blockCache => if msblk.block_cache then 1 else 0
  | Res.readPage => if msblk.read_page then 1 else 0
  | Res.fragCache => if msblk.fragment_cache then 1 else 0
  | Res.metaIndex => if msblk.meta_index then 1 else 0
  | Res.idTable => if msblk.id_table = TPtr.ok then 1 else 0
  | Res.fragIndex => if msblk.fragment_index = TPtr.ok then 1 else 0
  | Res.lookupTable => if msblk.inode_lookup_table = TPtr.ok then 1 else 0
  | Res.rootInode => 0

/-- The log accounts for the in-flight state: each resource has been
allocated exactly as often as it has been freed plus the copies the state
still holds. -/
def accounted (msblk : SbInfo) (log : List Event) : Prop :=
  ∀ r, countEv (Event.alloc r) log = countEv (Event.free r) log + held msblk r

/-- Combined post-state property of a squashfs_fill_super call: a nonzero
return means the log balances and the state pointer is cleared; no
release was ever applied to an error-encoded pointer; and any attached
state has well-formed table fields. -/
def FillResult.good (res : FillResult) : Prop :=
  (res.ret = 0 ∨
    (balancedLog res.log = true ∧ res.sb.s_fs_info = none)) ∧
  noBadFree res.log = true ∧
  tablesOk res.sb.s_fs_info = true

theorem countEv_append (e : Event) (l1 l2 : List Event) :
    countEv e (l1 ++ l2) = countEv e l1 + countEv e l2 := by
  induction l1 with
  | nil => simp [countEv]
  | cons x xs ih => simp [countEv, ih]; omega

theorem countEv_alloc_freeIf (r0 r : Res) (b : Bool) :
    countEv (Event.alloc r0) (freeIf r b) = 0 := by
  cases b <;> simp [freeIf, countEv]

theorem countEv_free_freeIf (r0 r : Res) (b : Bool) :
    countEv (Event.free r0) (freeIf r b) =
      if b = true ∧ r = r0 then 1 else 0 := by
  cases b <;> simp [freeIf, countEv]

theorem countEv_alloc_kfreeT (r0 r : Res) (p : TPtr) :
    countEv (Event.alloc r0) (kfreeT r p) = 0 := by
  cases p <;> simp [kfreeT, countEv]

theorem countEv_free_kfreeT (r0 r : Res) (p : TPtr) :
    countEv (Event.free r0) (kfreeT r p) =
      if p = TPtr.ok ∧ r = r0 then 1 else 0 := by
  cases p <;> simp [kfreeT, countEv]

theorem countEv_alloc_allocEvent (r0 r : Res) (p : TPtr) :
    countEv (Event.alloc r0) (allocEvent r p) =
      if p = TPtr.ok ∧ r = r0 then 1 else 0 := by
  cases p <;> simp [allocEvent, countEv]

theorem countEv_free_allocEvent (r0 r : Res) (p : TPtr) :
    countEv (Event.free r0) (allocEvent r p) = 0 := by
  cases p <;> simp [allocEvent, countEv]

theorem balancedLog_iff (l : List Event) :
    balancedLog l = true ↔
      ∀ r, countEv (Event.alloc r) l = countEv (Event.free r) l := by
  simp only [balancedLog, resList, List.all_cons, List.all_nil,
    Bool.and_eq_true, beq_iff_eq, and_true]
  constructor
  · rintro ⟨h1, h2, h3, h4, h5, h6, h7, h8, h9, h10, h11⟩ r
    cases r <;> assumption
  · intro h
    exact ⟨h _, h _, h _, h _, h _, h _, h _, h _, h _, h _, h _⟩

theorem noBadFree_append (l1 l2 : List Event) :
    noBadFree (l1 ++ l2) = (noBadFree l1 && noBadFree l2) := by
  simp [noBadFree, List.all_append]

theorem noBadFree_freeIf (r : Res) (b : Bool) :
    noBadFree (freeIf r b) = true := by
  cases b <;> simp [freeIf, noBadFree]

theorem noBadFree_kfreeT (r : Res) (p : TPtr) :
    noBadFree (kfreeT r p) = !p.isErr := by
  cases p <;> simp [kfreeT, noBadFree, TPtr.isErr]

theorem noBadFree_allocEvent (r : Res) (p : TPtr) :
    noBadFree (allocEvent r p) = true := by
  cases p <;> simp [allocEvent, noBadFree]

theorem noBadFree_single_free (r : Res) :
    noBadFree [Event.free r] = true := rfl

theorem noBadFree_pair_free (r1 r2 : Res) :
    noBadFree [Event.free r1, Event.free r2] = true := rfl

theorem noBadFree_nil : noBadFree [] = true := rfl

theorem noBadFree_cons_alloc (r : Res) (l : List Event) :
    noBadFree (Event.alloc r :: l) = noBadFree l := rfl

theorem noBadFree_cons_free (r : Res) (l : List Event) :
    noBadFree (Event.free r :: l) = noBadFree l := rfl

theorem failed_mount_good (sb : SB) (msblk : SbInfo) (log : List Event)
    (err : Int)
    (hacc : accounted msblk log)
    (hnb : noBadFree log = true)
    (hmi : msblk.meta_index = false)
    (hid : msblk.id_table.isErr = false)
    (hfi : msblk.fragment_index.isErr = false)
    (hlt : msblk.inode_lookup_table.isErr = false) :
    balancedLog (failed_mount sb msblk log err).log = true ∧
    (failed_mount sb msblk log err).sb.s_fs_info = none ∧
    noBadFree (failed_mount sb msblk log err).log = true ∧
    (failed_mount sb msblk log err).ret = err := by
  refine ⟨?_, rfl, ?_, rfl⟩
  · rw [balancedLog_iff]
    intro r
    have h := hacc r
    cases r <;>
      simp [failed_mount, countEv_append, countEv_alloc_freeIf,
        countEv_free_freeIf, countEv_alloc_kfreeT, countEv_free_kfreeT,
        countEv, held, hmi] at h ⊢ <;>
      (try split_ifs at h ⊢) <;> omega
  · simp [failed_mount, noBadFree_append, noBadFree_freeIf, noBadFree_kfreeT,
      noBadFree_single_free, noBadFree_pair_free, hnb, hid, hfi, hlt]

theorem allocate_root_good (env : Env) (sb : SB) (msblk : SbInfo)
    (log : List Event)
    (hacc : accounted msblk log)
    (hnb : noBadFree log = true)
    (hmi : msblk.meta_index = false)
    (hid : msblk.id_table.isErr = false)
    (hfi : msblk.fragment_index.isErr = false)
    (hlt : msblk.inode_lookup_table.isErr = false) :
    (allocate_root env sb msblk log).good := by
  have hacc2 : accounted msblk
      (log ++ [Event.alloc Res.rootInode] ++ [Event.free Res.rootInode]) := by
    intro r
    have h := hacc r
    simp [countEv_append, countEv]
    split_ifs <;> simp_all <;> omega
  have hnb2 : noBadFree
      (log ++ [Event.alloc Res.rootInode] ++ [Event.free Res.rootInode])
      = true := by
    simp [noBadFree_append, noBadFree_single_free, hnb]
    rfl
  unfold allocate_root FillResult.good
  split_ifs with h1 h2 h3
  · have hg := failed_mount_good sb msblk log (-ENOMEM) hacc hnb hmi hid hfi hlt
    exact ⟨Or.inr ⟨hg.1, hg.2.1⟩, hg.2.2.1, by rw [hg.2.1]; rfl⟩
  · have hg := failed_mount_good sb msblk
      (log ++ [Event.alloc Res.rootInode] ++ [Event.free Res.rootInode])
      env.read_inode_ret hacc2 hnb2 hmi hid hfi hlt
    exact ⟨Or.inr ⟨hg.1, hg.2.1⟩, hg.2.2.1, by rw [hg.2.1]; rfl⟩
  · have hg := failed_mount_good sb msblk
      (log ++ [Event.alloc Res.rootInode] ++ [Event.free Res.rootInode])
      (-ENOMEM) hacc2 hnb2 hmi hid hfi hlt
    exact ⟨Or.inr ⟨hg.1, hg.2.1⟩, hg.2.2.1, by rw [hg.2.1]; rfl⟩
  · refine ⟨Or.inl rfl, ?_, ?_⟩
    · simp [noBadFree_append, noBadFree_single_free, noBadFree_cons_alloc,
        noBadFree_cons_free, noBadFree_nil, hnb]
    · simp [tablesOk, hid, hfi, hlt]

theorem allocate_lookup_table_good (env : Env) (sblk : Sblk) (sb : SB)
    (msblk : SbInfo) (log : List Event)
    (hacc : accounted msblk log)
    (hnb : noBadFree log = true)
    (hmi : msblk.meta_index = false)
    (hid : msblk.id_table.isErr = false)
    (hfi : msblk.fragment_index.isErr = false)
    (hlt : msblk.inode_lookup_table = TPtr.null) :
    (allocate_lookup_table env sblk sb msblk log).good := by
  simp only [allocate_lookup_table]
  split_ifs with h1 h2
  · exact allocate_root_good env sb msblk log hacc hnb hmi hid hfi
      (by simp [hlt, TPtr.isErr])
  · have hacc2 : accounted { msblk with inode_lookup_table := TPtr.null }
        log := by
      intro r
      have h := hacc r
      cases r <;> simp [held, hlt] at h ⊢ <;>
        (try split_ifs at h ⊢) <;> omega
    have hg := failed_mount_good sb
      { msblk with inode_lookup_table := TPtr.null } log
      (PTR_ERR env.lookup_table_res) hacc2 hnb (by simp [hmi])
      (by simp [hid]) (by simp [hfi]) (by simp [TPtr.isErr])
    exact ⟨Or.inr ⟨hg.1, hg.2.1⟩, hg.2.2.1, by rw [hg.2.1]; rfl⟩
  · have hpe : env.lookup_table_res.isErr = false := by simpa using h2
    have hacc2 : accounted
        { msblk with inode_lookup_table := env.lookup_table_res }
        (log ++ allocEvent Res.lookupTable env.lookup_table_res) := by
      intro r
      have h := hacc r
      cases r <;>
        simp [held, hlt, countEv_append, countEv_alloc_allocEvent,
          countEv_free_allocEvent] at h ⊢ <;>
        (try split_ifs at h ⊢) <;> omega
    exact allocate_root_good env { sb with s_export_op := true } _ _ hacc2
      (by simp [noBadFree_append, noBadFree_allocEvent, hnb])
      (by simp [hmi]) (by simp [hid]) (by simp [hfi]) (by simp [hpe])

theorem fill_fragments_good (env : Env) (sblk : Sblk) (sb : SB)
    (msblk : SbInfo) (log : List Event)
    (hacc : accounted msblk log)
    (hnb : noBadFree log = true)
    (hmi : msblk.meta_index = false)
    (hid : msblk.id_table.isErr = false)
    (hfc : msblk.fragment_cache = false)
    (hfi : msblk.fragment_index = TPtr.null)
    (hlt : msblk.inode_lookup_table = TPtr.null) :
    (fill_fragments env sblk sb msblk log).good := by
  simp only [fill_fragments]
  split_ifs with h1 h2 h3
  · exact allocate_lookup_table_good env sblk sb msblk log hacc hnb hmi hid
      (by simp [hfi, TPtr.isErr]) hlt
  · have hg := failed_mount_good sb msblk log (-ENOMEM) hacc hnb hmi hid
      (by simp [hfi, TPtr.isErr]) (by simp [hlt, TPtr.isErr])
    exact ⟨Or.inr ⟨hg.1, hg.2.1⟩, hg.2.2.1, by rw [hg.2.1]; rfl⟩
  · have hacc2 : accounted
        { msblk with fragment_cache := true, fragment_index := TPtr.null }
        (log ++ [Event.alloc Res.fragCache]) := by
      intro r
      have h := hacc r
      cases r <;>
        simp [held, hfc, hfi, countEv_append, countEv] at h ⊢ <;>
        (try split_ifs at h ⊢) <;> omega
    have hnb2 : noBadFree (log ++ [Event.alloc Res.fragCache]) = true := by
      simp [noBadFree_append, noBadFree_cons_alloc, noBadFree_nil, hnb]
    have hg := failed_mount_good sb
      { msblk with fragment_cache := true, fragment_index := TPtr.null }
      (log ++ [Event.alloc Res.fragCache])
      (PTR_ERR env.fragment_index_res) hacc2 hnb2 (by simp [hmi])
      (by simp [hid]) (by simp [TPtr.isErr]) (by simp [hlt, TPtr.isErr])
    exact ⟨Or.inr ⟨hg.1, hg.2.1⟩, hg.2.2.1, by rw [hg.2.1]; rfl⟩
  · have hpe : env.fragment_index_res.isErr = false := by simpa using h3
    have hacc2 : accounted
        { msblk with
          fragment_cache := true, fragment_index := env.fragment_index_res }
        (log ++ [Event.alloc Res.fragCache]
          ++ allocEvent Res.fragIndex env.fragment_index_res) := by
      intro r
      have h := hacc r
      cases r <;>
        simp [held, hfc, hfi, countEv_append, countEv,
          countEv_alloc_allocEvent, countEv_free_allocEvent] at h ⊢ <;>
        (try split_ifs at h ⊢) <;> omega
    exact allocate_lookup_table_good env sblk sb _ _ hacc2
      (by simp [noBadFree_append, noBadFree_allocEvent,
        noBadFree_cons_alloc, noBadFree_nil, hnb])
      (by simp [hmi]) (by simp [hid]) (by simp [hpe]) (by simp [hlt])

theorem fill_caches_good (env : Env) (sblk : Sblk) (sb : SB)
    (msblk : SbInfo) (log : List Event)
    (hacc : accounted msblk log)
    (hnb : noBadFree log = true)
    (hmi : msblk.meta_index = false)
    (hbc : msblk.block_cache = false)
    (hrp : msblk.read_page = false)
    (hid : msblk.id_table = TPtr.null)
    (hfc : msblk.fragment_cache = false)
    (hfi : msblk.fragment_index = TPtr.null)
    (hlt : msblk.inode_lookup_table = TPtr.null) :
    (fill_caches env sblk sb msblk log).good := by
  simp only [fill_caches]
  split_ifs with h1 h2 h3
  · have hg := failed_mount_good sb msblk log (-ENOMEM) hacc hnb hmi
      (by simp [hid, TPtr.isErr]) (by simp [hfi, TPtr.isErr])
      (by simp [hlt, TPtr.isErr])
    exact ⟨Or.inr ⟨hg.1, hg.2.1⟩, hg.2.2.1, by rw [hg.2.1]; rfl⟩
  · have hacc2 : accounted { msblk with block_cache := true }
        (log ++ [Event.alloc Res.blockCache]) := by
      intro r
      have h := hacc r
      cases r <;> simp [held, hbc, countEv_append, countEv] at h ⊢ <;>
        (try split_ifs at h ⊢) <;> omega
    have hg := failed_mount_good sb { msblk with block_cache := true }
      (log ++ [Event.alloc Res.blockCache]) (-ENOMEM) hacc2
      (by simp [noBadFree_append, noBadFree_cons_alloc, noBadFree_nil, hnb])
      (by simp [hmi]) (by simp [hid, TPtr.isErr]) (by simp [hfi, TPtr.isErr])
      (by simp [hlt, TPtr.isErr])
    exact ⟨Or.inr ⟨hg.1, hg.2.1⟩, hg.2.2.1, by rw [hg.2.1]; rfl⟩
  · have hacc2 : accounted
        { msblk with
          block_cache := true, read_page := true, id_table := TPtr.null }
        (log ++ [Event.alloc Res.blockCache] ++ [Event.alloc Res.readPage])
        := by
      intro r
      have h := hacc r
      cases r <;>
        simp [held, hbc, hrp, hid, countEv_append, countEv] at h ⊢ <;>
        (try split_ifs at h ⊢) <;> omega
    have hg := failed_mount_good sb
      { msblk with
        block_cache := true, read_page := true, id_table := TPtr.null }
      (log ++ [Event.alloc Res.blockCache] ++ [Event.alloc Res.readPage])
      (PTR_ERR env.id_table_res) hacc2
      (by simp [noBadFree_append, noBadFree_cons_alloc, noBadFree_nil, hnb])
      (by simp [hmi]) (by simp [TPtr.isErr]) (by simp [hfi, TPtr.isErr])
      (by simp [hlt, TPtr.isErr])
    exact ⟨Or.inr ⟨hg.1, hg.2.1⟩, hg.2.2.1, by rw [hg.2.1]; rfl⟩
  · have hpe : env.id_table_res.isErr = false := by simpa using h3
    have hacc2 : accounted
        { msblk with
          block_cache := true, read_page := true,
          id_table := env.id_table_res }
        (log ++ [Event.alloc Res.blockCache] ++ [Event.alloc Res.readPage]
          ++ allocEvent Res.idTable env.id_table_res) := by
      intro r
      have h := hacc r
      cases r <;>
        simp [held, hbc, hrp, hid, countEv_append, countEv,
          countEv_alloc_allocEvent, countEv_free_allocEvent] at h ⊢ <;>
        (try split_ifs at h ⊢) <;> omega
    exact fill_fragments_good env sblk sb _ _ hacc2
      (by simp [noBadFree_append, noBadFree_allocEvent, noBadFree_cons_alloc,
        noBadFree_nil, hnb])
      (by simp [hmi]) (by simp [hpe]) (by simp [hfc]) (by simp [hfi])
      (by simp [hlt])

theorem fill_checks_good (env : Env) (sblk : Sblk) (sb : SB)
    (msblk : SbInfo) (log : List Event)
    (hacc : accounted msblk log)
    (hnb : noBadFree log = true)
    (hmi : msblk.meta_index = false)
    (hbc : msblk.block_cache = false)
    (hrp : msblk.read_page = false)
    (hid : msblk.id_table = TPtr.null)
    (hfc : msblk.fragment_cache = false)
    (hfi : msblk.fragment_index = TPtr.null)
    (hlt : msblk.inode_lookup_table = TPtr.null) :
    (fill_checks env sblk sb msblk log).good := by
  simp only [fill_checks]
  split_ifs with h1 h2 h3 h4
  · have hg := failed_mount_good sb
      { msblk with bytes_used := sblk.bytes_used } log (-EINVAL)
      (by intro r; have h := hacc r; cases r <;> simpa [held] using h)
      hnb (by simp [hmi]) (by simp [hid, TPtr.isErr])
      (by simp [hfi, TPtr.isErr]) (by simp [hlt, TPtr.isErr])
    exact ⟨Or.inr ⟨hg.1, hg.2.1⟩, hg.2.2.1, by rw [hg.2.1]; rfl⟩
  · have hg := failed_mount_good sb
      { msblk with
        bytes_used := sblk.bytes_used, block_size := sblk.block_size }
      log (-EINVAL)
      (by intro r; have h := hacc r; cases r <;> simpa [held] using h)
      hnb (by simp [hmi]) (by simp [hid, TPtr.isErr])
      (by simp [hfi, TPtr.isErr]) (by simp [hlt, TPtr.isErr])
    exact ⟨Or.inr ⟨hg.1, hg.2.1⟩, hg.2.2.1, by rw [hg.2.1]; rfl⟩
  · have hg := failed_mount_good sb
      { msblk with
        bytes_used := sblk.bytes_used, block_size := sblk.block_size,
        block_log := sblk.block_log }
      log (-EINVAL)
      (by intro r; have h := hacc r; cases r <;> simpa [held] using h)
      hnb (by simp [hmi]) (by simp [hid, TPtr.isErr])
      (by simp [hfi, TPtr.isErr]) (by simp [hlt, TPtr.isErr])
    exact ⟨Or.inr ⟨hg.1, hg.2.1⟩, hg.2.2.1, by rw [hg.2.1]; rfl⟩
  · have hg := failed_mount_good sb
      { msblk with
        bytes_used := sblk.bytes_used, block_size := sblk.block_size,
        block_log := sblk.block_log }
      log (-EINVAL)
      (by intro r; have h := hacc r; cases r <;> simpa [held] using h)
      hnb (by simp [hmi]) (by simp [hid, TPtr.isErr])
      (by simp [hfi, TPtr.isErr]) (by simp [hlt, TPtr.isErr])
    exact ⟨Or.inr ⟨hg.1, hg.2.1⟩, hg.2.2.1, by rw [hg.2.1]; rfl⟩
  · exact fill_caches_good env sblk _ _ log
      (by intro r; have h := hacc r; cases r <;> simpa [held] using h)
      hnb (by simp [hmi]) (by simp [hbc]) (by simp [hrp]) (by simp [hid])
      (by simp [hfc]) (by simp [hfi]) (by simp [hlt])

theorem fill_super_good (env : Env) (sblk : Sblk) :
    (squashfs_fill_super env sblk).good := by
  have hacc4 : accounted
      { devblksize := env.devblksize,
        devblksize_log2 := ffz_compl env.devblksize, bytes_used := 96,
        workspace := true }
      ([Event.alloc Res.msblkInfo] ++ [Event.alloc Res.workspace]
        ++ [Event.alloc Res.sblkBuf]) := by
    intro r
    cases r <;> simp [held, countEv_append, countEv]
  have hnb4 : noBadFree
      ([Event.alloc Res.msblkInfo] ++ [Event.alloc Res.workspace]
        ++ [Event.alloc Res.sblkBuf]) = true := by
    simp [noBadFree_append, noBadFree_cons_alloc, noBadFree_nil]
  simp only [squashfs_fill_super]
  split_ifs with h1 h2 h3 h4 h5 h6
  · exact ⟨Or.inr ⟨by decide, rfl⟩, by decide, rfl⟩
  · exact ⟨Or.inr ⟨by decide, rfl⟩, by decide, rfl⟩
  · exact ⟨Or.inr ⟨by decide, rfl⟩, by decide, rfl⟩
  · have hg := failed_mount_good ({} : SB)
      { devblksize := env.devblksize,
        devblksize_log2 := ffz_compl env.devblksize, bytes_used := 96,
        workspace := true }
      ([Event.alloc Res.msblkInfo] ++ [Event.alloc Res.workspace]
        ++ [Event.alloc Res.sblkBuf])
      env.read_data_ret hacc4 hnb4 rfl rfl rfl rfl
    exact ⟨Or.inr ⟨hg.1, hg.2.1⟩, hg.2.2.1, by rw [hg.2.1]; rfl⟩
  · have hg := failed_mount_good { s_magic := sblk.s_magic }
      { devblksize := env.devblksize,
        devblksize_log2 := ffz_compl env.devblksize, bytes_used := 96,
        workspace := true }
      ([Event.alloc Res.msblkInfo] ++ [Event.alloc Res.workspace]
        ++ [Event.alloc Res.sblkBuf])
      (-EINVAL) hacc4 hnb4 rfl rfl rfl rfl
    exact ⟨Or.inr ⟨hg.1, hg.2.1⟩, hg.2.2.1, by rw [hg.2.1]; rfl⟩
  · have hg := failed_mount_good { s_magic := sblk.s_magic }
      { devblksize := env.devblksize,
        devblksize_log2 := ffz_compl env.devblksize, bytes_used := 96,
        workspace := true }
      ([Event.alloc Res.msblkInfo] ++ [Event.alloc Res.workspace]
        ++ [Event.alloc Res.sblkBuf])
      (supported_squashfs_filesystem sblk.s_major sblk.s_minor
        sblk.compression) hacc4 hnb4 rfl rfl rfl rfl
    exact ⟨Or.inr ⟨hg.1, hg.2.1⟩, hg.2.2.1, by rw [hg.2.1]; rfl⟩
  · exact fill_checks_good env sblk { s_magic := sblk.s_magic }
      { devblksize := env.devblksize,
        devblksize_log2 := ffz_compl env.devblksize, bytes_used := 96,
        workspace := true }
      ([Event.alloc Res.msblkInfo] ++ [Event.alloc Res.workspace]
        ++ [Event.alloc Res.sblkBuf])
      hacc4 hnb4 rfl rfl rfl rfl rfl rfl rfl

theorem allocate_root_ret (env : Env) (sb : SB) (msblk : SbInfo)
    (log : List Event) :
    (allocate_root env sb msblk log).ret = root_ret env := by
  simp only [allocate_root, root_ret]
  split_ifs <;> rfl

theorem allocate_lookup_table_ret (env : Env) (sblk : Sblk) (sb : SB)
    (msblk : SbInfo) (log : List Event) :
    (allocate_lookup_table env sblk sb msblk log).ret =
      lookup_ret env sblk := by
  simp only [allocate_lookup_table, lookup_ret]
  split_ifs <;> first | rfl | apply allocate_root_ret | simp_all

theorem fill_fragments_ret (env : Env) (sblk : Sblk) (sb : SB)
    (msblk : SbInfo) (log : List Event) :
    (fill_fragments env sblk sb msblk log).ret = frag_ret env sblk := by
  simp only [fill_fragments, frag_ret]
  split_ifs <;> first | rfl | apply allocate_lookup_table_ret | simp_all

theorem fill_caches_ret (env : Env) (sblk : Sblk) (sb : SB)
    (msblk : SbInfo) (log : List Event) :
    (fill_caches env sblk sb msblk log).ret = caches_ret env sblk := by
  simp only [fill_caches, caches_ret]
  split_ifs <;> first | rfl | apply fill_fragments_ret | simp_all

theorem fill_checks_ret (env : Env) (sblk : Sblk) (sb : SB)
    (msblk : SbInfo) (log : List Event) :
    (fill_checks env sblk sb msblk log).ret = checks_ret env sblk := by
  simp only [fill_checks, checks_ret]
  split_ifs <;> first | rfl | apply fill_caches_ret | simp_all

theorem fill_super_ret (env : Env) (sblk : Sblk) :
    (squashfs_fill_super env sblk).ret =
      first_failing_step_error env sblk := by
  simp only [squashfs_fill_super, first_failing_step_error]
  split_ifs <;> first | rfl | apply fill_checks_ret | simp_all

theorem freedAtMostOnce_iff (l : List Event) :
    freedAtMostOnce l = true ↔
      ∀ r, countEv (Event.free r) l ≤ 1 := by
  simp only [freedAtMostOnce, resList, List.all_cons, List.all_nil,
    Bool.and_eq_true, and_true, Nat.ble_eq]
  constructor
  · rintro ⟨h1, h2, h3, h4, h5, h6, h7, h8, h9, h10, h11⟩ r
    cases r <;> assumption
  · intro h
    exact ⟨h _, h _, h _, h _, h _, h _, h _, h _, h _, h _, h _⟩

/-- C1: whenever squashfs_fill_super fails at any step (resource
acquisition, validation, or root materialization, under any fault
injection), every resource acquired before the failure is released
exactly once (releasing an absent resource is a no-op), the
validated-superblock scratch copy is freed, the mount's state pointer is
left cleared, and the originating error code of the first failing step is
returned unchanged. -/
theorem c1_fill_super_failure_unwinds_exactly (env : Env) (sblk : Sblk)
    (h : (squashfs_fill_super env sblk).ret ≠ 0) :
    balancedLog (squashfs_fill_super env sblk).log = true ∧
    (squashfs_fill_super env sblk).sb.s_fs_info = none ∧
    (squashfs_fill_super env sblk).ret =
      first_failing_step_error env sblk := by
  rcases (fill_super_good env sblk).1 with h0 | hb
  · exact absurd h0 h
  · exact ⟨hb.1, hb.2, fill_super_ret env sblk⟩

/-- C1 witness: a concrete run in which the id-table loader fails with
error -5; the log balances, the state pointer is cleared and -5 is
returned unchanged. -/
theorem c1_witness :
    balancedLog (squashfs_fill_super envIdErr sblk0).log = true ∧
    (squashfs_fill_super envIdErr sblk0).sb.s_fs_info = none ∧
    (squashfs_fill_super envIdErr sblk0).ret =
      first_failing_step_error envIdErr sblk0 :=
  c1_fill_super_failure_unwinds_exactly envIdErr sblk0 (by decide)

/-- C10: on every exit of squashfs_fill_super, no release was ever
applied to an error-encoded pointer (each loader-failure branch resets
its field to NULL before the unconditional frees of the unwind run), and
any attached mount state has its three table fields equal to NULL or a
valid owned allocation, never an ERR_PTR value. -/
theorem c10_table_fields_never_error_encoded (env : Env) (sblk : Sblk) :
    noBadFree (squashfs_fill_super env sblk).log = true ∧
    tablesOk (squashfs_fill_super env sblk).sb.s_fs_info = true :=
  ⟨(fill_super_good env sblk).2.1, (fill_super_good env sblk).2.2⟩

/-- C2: on a fully mounted, export-capable state squashfs_put_super
releases the metadata cache, fragment cache, read-ahead buffer, id
table, fragment index, meta-index structure, decompression workspace and
the state allocation, and clears the state pointer — but it never
releases the inode lookup table, although the table is present: the
claimed release of the inode lookup table does not happen (the source
omits it), so the table leaks.  This theorem evaluates the unmount path
at the failing input. -/
theorem c2_put_super_leaks_inode_lookup_table :
    fullSbi.inode_lookup_table = TPtr.ok ∧
    (squashfs_put_super mountedSB).1.s_fs_info = none ∧
    countEv (Event.free Res.blockCache) (squashfs_put_super mountedSB).2
      = 1 ∧
    countEv (Event.free Res.fragCache) (squashfs_put_super mountedSB).2
      = 1 ∧
    countEv (Event.free Res.readPage) (squashfs_put_super mountedSB).2
      = 1 ∧
    countEv (Event.free Res.idTable) (squashfs_put_super mountedSB).2
      = 1 ∧
    countEv (Event.free Res.fragIndex) (squashfs_put_super mountedSB).2
      = 1 ∧
    countEv (Event.free Res.metaIndex) (squashfs_put_super mountedSB).2
      = 1 ∧
    countEv (Event.free Res.workspace) (squashfs_put_super mountedSB).2
      = 1 ∧
    countEv (Event.free Res.msblkInfo) (squashfs_put_super mountedSB).2
      = 1 ∧
    countEv (Event.free Res.lookupTable) (squashfs_put_super mountedSB).2
      = 0 := by decide

/-- C4: the version/compression gate rejects with -EINVAL exactly when
the major version differs from the supported one, or the major matches
and the minor is newer, or the compression is not the single supported
algorithm; it accepts (returns 0) exactly on the supported major, a minor
at most the supported one, and the supported compression. -/
theorem c4_version_compression_gate (major minor comp : Int) :
    (supported_squashfs_filesystem major minor comp = -EINVAL ↔
      (major < SQUASHFS_MAJOR ∨ SQUASHFS_MAJOR < major ∨
        (major = SQUASHFS_MAJOR ∧ SQUASHFS_MINOR < minor) ∨
        comp ≠ ZLIB_COMPRESSION)) ∧
    (supported_squashfs_filesystem major minor comp = 0 ↔
      (major = SQUASHFS_MAJOR ∧ minor ≤ SQUASHFS_MINOR ∧
        comp = ZLIB_COMPRESSION)) := by
  simp only [supported_squashfs_filesystem, SQUASHFS_MAJOR, SQUASHFS_MINOR,
    ZLIB_COMPRESSION, EINVAL]
  split_ifs <;> constructor <;> simp_all <;> omega

/-- C4 witness: an older major version is rejected with -EINVAL, and the
supported 4.0 zlib triple is accepted. -/
theorem c4_witness :
    supported_squashfs_filesystem 3 0 1 = -EINVAL ∧
    supported_squashfs_filesystem 4 0 1 = 0 :=
  ⟨(c4_version_compression_gate 3 0 1).1.mpr (by decide),
   (c4_version_compression_gate 4 0 1).2.mpr (by decide)⟩

/-- C6 counterexample: a superblock that validation accepts (mount
returns 0) with block_size 131072 but block_log 16 yields a capacity
report of 2 blocks, while ceil(bytes_used / block_size) is 1 — the
claimed block count does not hold for every accepted superblock. -/
theorem c6_counterexample :
    (squashfs_fill_super envOK sblkMismatch).ret = 0 ∧
    ((squashfs_fill_super envOK sblkMismatch).sb.s_fs_info.map
      fun i => (squashfs_statfs i).f_blocks) = some 2 ∧
    ceil_div sblkMismatch.bytes_used sblkMismatch.block_size = 1 := by
  decide

/-- C6 amended: squashfs_statfs reports block_size, zero free and
available blocks, the mount's inode count, zero free inodes and the fixed
maximum name length; the block count is ((bytes_used - 1) >> block_log)
+ 1, which equals ceil(bytes_used / block_size) whenever block_size is
2 ^ block_log — including bytes_used = 0, where it is 0. -/
theorem c6_statfs_report (msblk : SbInfo) :
    (squashfs_statfs msblk).f_bsize = msblk.block_size ∧
    (squashfs_statfs msblk).f_bfree = 0 ∧
    (squashfs_statfs msblk).f_bavail = 0 ∧
    (squashfs_statfs msblk).f_files = msblk.inodes ∧
    (squashfs_statfs msblk).f_ffree = 0 ∧
    (squashfs_statfs msblk).f_namelen = SQUASHFS_NAME_LEN ∧
    (msblk.block_size = 2 ^ msblk.block_log →
      (squashfs_statfs msblk).f_blocks =
        ceil_div msblk.bytes_used msblk.block_size) := by
  refine ⟨rfl, rfl, rfl, rfl, rfl, rfl, ?_⟩
  intro h
  simp only [squashfs_statfs, ceil_div, h]
  push_cast
  have hm : ((2 : Int) ^ msblk.block_log) ≠ 0 := by positivity
  rw [show msblk.bytes_used + (2 : Int) ^ msblk.block_log - 1 =
    (msblk.bytes_used - 1) + 1 * (2 : Int) ^ msblk.block_log by ring]
  rw [Int.add_mul_ediv_right _ _ hm]

/-- C6 amended witness: on a fully mounted state with block_size equal to
2 ^ block_log the reported block count is the ceiling, and the inode
count is reported as is. -/
theorem c6_witness :
    (squashfs_statfs fullSbi).f_blocks =
      ceil_div fullSbi.bytes_used fullSbi.block_size ∧
    (squashfs_statfs fullSbi).f_files = fullSbi.inodes :=
  ⟨(c6_statfs_report fullSbi).2.2.2.2.2.2 (by decide),
   (c6_statfs_report fullSbi).2.2.2.1⟩

/-- C9: the validator never compares block_size with 2 ^ block_log:
there is a superblock with block_size not equal to 2 ^ block_log that
mounts successfully, after which the capacity report states block_size as
the block size while computing the block count by shifting by block_log,
and the two figures are mutually inconsistent (1 block reported versus a
ceiling of 2). -/
theorem c9_block_size_log_unchecked :
    ∃ env sblk,
      (squashfs_fill_super env sblk).ret = 0 ∧
      sblk.block_size ≠ 2 ^ sblk.block_log ∧
      ((squashfs_fill_super env sblk).sb.s_fs_info.map
        fun i => (squashfs_statfs i).f_bsize) = some sblk.block_size ∧
      ((squashfs_fill_super env sblk).sb.s_fs_info.map
        fun i => (squashfs_statfs i).f_blocks) = some 1 ∧
      ceil_div sblk.bytes_used sblk.block_size = 2 :=
  ⟨envOK, sblkShift, by decide⟩

/-- C3 counterexample: on a superblock with the wrong magic, mount is
rejected with -EINVAL, but the decompression workspace — a resource
beyond the transient validation scratch buffer — has been allocated by
the time of the rejection (its allocation count in the run's log is 1,
not 0 as the claim requires). -/
theorem c3_counterexample :
    (squashfs_fill_super envOK sblkBadMagic).ret = -EINVAL ∧
    countEv (Event.alloc Res.workspace)
      (squashfs_fill_super envOK sblkBadMagic).log = 1 := by decide

/-- C3 amended: for every raw superblock whose magic differs from the
format constant (and whose read reaches the magic check), mount fails
with -EINVAL; none of the downstream steps run — no cache, buffer,
table or root allocation ever happens — and the state allocation,
decompression workspace and scratch buffer that were acquired before
validation are all released, leaving the state pointer cleared. -/
theorem c3_bad_magic_rejected_before_downstream (env : Env) (sblk : Sblk)
    (hm : env.msblk_alloc_ok = true)
    (hw : env.workspace_alloc_ok = true)
    (hs : env.sblk_alloc_ok = true)
    (hr : 0 ≤ env.read_data_ret)
    (hmag : sblk.s_magic ≠ SQUASHFS_MAGIC) :
    (squashfs_fill_super env sblk).ret = -EINVAL ∧
    downstreamAllocs (squashfs_fill_super env sblk).log = 0 ∧
    balancedLog (squashfs_fill_super env sblk).log = true ∧
    (squashfs_fill_super env sblk).sb.s_fs_info = none := by
  have hrd : ¬env.read_data_ret < 0 := Int.not_lt.mpr hr
  have hacc4 : accounted
      { devblksize := env.devblksize,
        devblksize_log2 := ffz_compl env.devblksize, bytes_used := 96,
        workspace := true }
      ([Event.alloc Res.msblkInfo] ++ [Event.alloc Res.workspace]
        ++ [Event.alloc Res.sblkBuf]) := by
    intro r
    cases r <;> simp [held, countEv_append, countEv]
  have hg := failed_mount_good { s_magic := sblk.s_magic }
    { devblksize := env.devblksize,
      devblksize_log2 := ffz_compl env.devblksize, bytes_used := 96,
      workspace := true }
    ([Event.alloc Res.msblkInfo] ++ [Event.alloc Res.workspace]
      ++ [Event.alloc Res.sblkBuf])
    (-EINVAL) hacc4
    (by simp [noBadFree_append, noBadFree_cons_alloc, noBadFree_nil])
    rfl rfl rfl rfl
  refine ⟨?_, ?_, ?_, ?_⟩ <;>
    simp only [squashfs_fill_super, hm, hw, hs] <;>
    simp [hrd, hmag]
  · exact hg.2.2.2
  · simp [downstreamAllocs, countEv_append, countEv_alloc_freeIf,
      countEv_alloc_kfreeT, countEv]
  · exact hg.1
  · exact hg.2.1

/-- C3 amended witness: the concrete bad-magic superblock is rejected
with -EINVAL, no downstream resource is ever allocated, and everything
acquired is released. -/
theorem c3_witness :
    (squashfs_fill_super envOK sblkBadMagic).ret = -EINVAL ∧
    downstreamAllocs (squashfs_fill_super envOK sblkBadMagic).log = 0 ∧
    balancedLog (squashfs_fill_super envOK sblkBadMagic).log = true ∧
    (squashfs_fill_super envOK sblkBadMagic).sb.s_fs_info = none :=
  c3_bad_magic_rejected_before_downstream envOK sblkBadMagic rfl rfl rfl
    (by decide) (by decide)

/-- C5: for superblocks that pass the magic and version gates, with no
external fault injected, mount returns -EINVAL exactly when one of the
size and bound checks fails — bytes_used negative or beyond the device,
block_size above the maximum file size, block_log above its log, or the
root locator offset above the metadata block size (the checks are nested
in the embedding in source order, each short-circuiting) — and mount
succeeds when all the bounds hold. -/
theorem c5_bound_checks_reject (env : Env) (sblk : Sblk)
    (hok : env.allOk)
    (hmag : sblk.s_magic = SQUASHFS_MAGIC)
    (hver : supported_squashfs_filesystem sblk.s_major sblk.s_minor
      sblk.compression = 0) :
    ((squashfs_fill_super env sblk).ret = -EINVAL ↔
      bounds_violated sblk env.dev_size) ∧
    (¬bounds_violated sblk env.dev_size →
      (squashfs_fill_super env sblk).ret = 0) := by
  obtain ⟨h1, h2, h3, h4, h5, h6, h7, h8, h9, h10, h11, h12, h13⟩ := hok
  have hrd : ¬env.read_data_ret < 0 := Int.not_lt.mpr h4
  rw [fill_super_ret]
  simp only [first_failing_step_error, checks_ret, caches_ret, frag_ret,
    lookup_ret, root_ret, bounds_violated]
  simp [h1, h2, h3, hrd, h5, h6, h7, h8, h9, h10, h11, h12, h13, hmag,
    hver, TPtr.isErr, EINVAL]
  split_ifs <;> simp_all <;> omega

/-- C5 witness: with no faults injected, a superblock whose bytes_used
exceeds the device size is rejected with -EINVAL, and the same superblock
within bounds mounts successfully. -/
theorem c5_witness :
    (squashfs_fill_super { envOK with dev_size := 1000 } sblk0).ret
      = -EINVAL ∧
    (squashfs_fill_super envOK sblk0).ret = 0 :=
  ⟨(c5_bound_checks_reject { envOK with dev_size := 1000 } sblk0
      (by decide) rfl (by decide)).1.mpr (by decide),
   (c5_bound_checks_reject envOK sblk0 (by decide) rfl (by decide)).2
      (by decide)⟩

/-- C7: the export capability is enabled exactly when the inode lookup
table is present.  With no fault injected and a superblock passing
validation: when lookup_table_start is the absent sentinel, mount
succeeds with the export operations disabled, the lookup-table field
NULL, and no lookup-table allocation in the log; when it is not the
sentinel the load succeeds, mount succeeds, the export operations are
enabled, and the lookup table is owned by the mount. -/
theorem c7_export_iff_lookup_table (env : Env) (sblk : Sblk)
    (hok : env.allOk) (hv : sblk_valid sblk env.dev_size) :
    (sblk.lookup_table_start = SQUASHFS_INVALID_BLK →
      (squashfs_fill_super env sblk).ret = 0 ∧
      (squashfs_fill_super env sblk).sb.s_export_op = false ∧
      ((squashfs_fill_super env sblk).sb.s_fs_info.map
        fun i => i.inode_lookup_table) = some TPtr.null ∧
      countEv (Event.alloc Res.lookupTable)
        (squashfs_fill_super env sblk).log = 0) ∧
    (sblk.lookup_table_start ≠ SQUASHFS_INVALID_BLK →
      (squashfs_fill_super env sblk).ret = 0 ∧
      (squashfs_fill_super env sblk).sb.s_export_op = true ∧
      ((squashfs_fill_super env sblk).sb.s_fs_info.map
        fun i => i.inode_lookup_table) = some TPtr.ok) := by
  obtain ⟨h1, h2, h3, h4, h5, h6, h7, h8, h9, h10, h11, h12, h13⟩ := hok
  obtain ⟨hv1, hv2, hv3, hv4, hv5, hv6, hv7⟩ := hv
  have hrd : ¬env.read_data_ret < 0 := Int.not_lt.mpr h4
  have hb1 : ¬(sblk.bytes_used < 0 ∨ sblk.bytes_used > env.dev_size) := by
    omega
  have hb2 : ¬sblk.block_size > SQUASHFS_FILE_SIZE := by omega
  have hb3 : ¬sblk.block_log > SQUASHFS_FILE_LOG := by omega
  have hb4 : ¬SQUASHFS_INODE_OFFSET sblk.root_inode >
      SQUASHFS_METADATA_SIZE := by omega
  have hmagn : ¬sblk.s_magic ≠ SQUASHFS_MAGIC := by simp [hv1]
  have hvern : ¬supported_squashfs_filesystem sblk.s_major sblk.s_minor
      sblk.compression < 0 := by rw [hv2]; omega
  constructor
  · intro hl
    by_cases hf : sblk.fragments = 0 <;>
      simp [squashfs_fill_super, fill_checks, fill_caches, fill_fragments,
        allocate_lookup_table, allocate_root, h1, h2, h3, hrd, hmagn,
        hvern, hb1, hb2, hb3, hb4, h5, h6, h7, h8, h9, h10, h11, h12, h13,
        TPtr.isErr, hl, hf, allocEvent, countEv_append, countEv]
  · intro hl
    by_cases hf : sblk.fragments = 0 <;>
      simp [squashfs_fill_super, fill_checks, fill_caches, fill_fragments,
        allocate_lookup_table, allocate_root, h1, h2, h3, hrd, hmagn,
        hvern, hb1, hb2, hb3, hb4, h5, h6, h7, h8, h9, h10, h11, h12, h13,
        TPtr.isErr, hl, hf, allocEvent]

/-- C7 witness: the spec scenario superblock with the sentinel mounts
with export disabled, and the same superblock with a lookup table start
mounts with export enabled and an owned lookup table. -/
theorem c7_witness :
    ((squashfs_fill_super envOK sblk0).ret = 0 ∧
      (squashfs_fill_super envOK sblk0).sb.s_export_op = false) ∧
    ((squashfs_fill_super envOK sblkLookup).ret = 0 ∧
      (squashfs_fill_super envOK sblkLookup).sb.s_export_op = true) :=
  ⟨⟨((c7_export_iff_lookup_table envOK sblk0 (by decide)
        (by decide)).1 (by decide)).1,
    ((c7_export_iff_lookup_table envOK sblk0 (by decide)
        (by decide)).1 (by decide)).2.1⟩,
   ⟨((c7_export_iff_lookup_table envOK sblkLookup (by decide)
        (by decide)).2 (by decide)).1,
    ((c7_export_iff_lookup_table envOK sblkLookup (by decide)
        (by decide)).2 (by decide)).2.1⟩⟩

/-- C8: the unmount path is idempotent: after one squashfs_put_super
call the state pointer is cleared, so a second call performs no release
at all and leaves the super block unchanged, and across both calls no
resource is released more than once. -/
theorem c8_put_super_idempotent (sb : SB) :
    (squashfs_put_super (squashfs_put_super sb).1).2 = [] ∧
    (squashfs_put_super (squashfs_put_super sb).1).1 =
      (squashfs_put_super sb).1 ∧
    freedAtMostOnce ((squashfs_put_super sb).2
      ++ (squashfs_put_super (squashfs_put_super sb).1).2) = true := by
  rcases hsb : sb.s_fs_info with _ | i
  · have e1 : squashfs_put_super sb = (sb, []) := by
      simp [squashfs_put_super, hsb]
    refine ⟨?_, ?_, ?_⟩ <;> simp [e1]
    decide
  · have e0 : (squashfs_put_super sb).1 = { sb with s_fs_info := none } := by
      simp [squashfs_put_super, hsb]
    have e2 : squashfs_put_super { sb with s_fs_info := none } =
        ({ sb with s_fs_info := none }, []) := by
      simp [squashfs_put_super]
    refine ⟨by simp [e0, e2], by simp [e0, e2], ?_⟩
    rw [e0, e2]
    simp only [List.append_nil]
    have e3 : (squashfs_put_super sb).2 =
        freeIf Res.blockCache i.block_cache
        ++ freeIf Res.fragCache i.fragment_cache
        ++ freeIf Res.readPage i.read_page
        ++ kfreeT Res.idTable i.id_table
        ++ kfreeT Res.fragIndex i.fragment_index
        ++ freeIf Res.metaIndex i.meta_index
        ++ freeIf Res.workspace i.workspace
        ++ [Event.free Res.msblkInfo] := by
      simp [squashfs_put_super, hsb]
    rw [e3, freedAtMostOnce_iff]
    intro r
    cases r <;>
      simp [countEv_append, countEv_free_freeIf, countEv_free_kfreeT,
        countEv] <;>
      (try split_ifs) <;> omega

end Squashfs
